import Mathlib

/-
Verification of the streaming-chat statistics core of the ai-chatbot backend
(src/aichat/backend/main.py): the in-memory stats ledger, the streaming chat
session commit step, the websocket broadcast loop, the configuration merge,
and the PDF-summary request construction.  Python strings are embedded as
Lean String values (a sequence of characters); Python floats carry only
exact arithmetic in the claims considered, so they are embedded as ℚ;
the external OpenAI streaming response is embedded as a list of stream
items, each either a chunk with an optional text delta or a raised error.
-/

/-- Python negative-index slice xs[-n:]: the n most recent entries of a list
(the whole list when it has fewer than n). -/
def lastN {α : Type} (l : List α) (n : ℕ) : List α := l.drop (l.length - n)

/-- Python slice text[:n] on a string: its first n characters. -/
def strTake (s : String) (n : ℕ) : String := String.mk (s.data.take n)

/-- The model_config dictionary held by ChatStats (main.py lines 53-57). -/
structure ModelConfig where
  temperature : ℚ
  max_tokens : ℤ
  model : String
deriving Repr, DecidableEq

/-- One entry of stats.conversations, as built at main.py lines 262-268. -/
structure ConversationRecord where
  user_message : String
  assistant_response : String
  timestamp : String
  response_time : ℚ
  tokens : ℕ
deriving Repr, DecidableEq

/-- The in-memory ChatStats object (main.py lines 47-58), minus the
connection list, which lives in the ConnectionManager model below. -/
structure ChatStats where
  total_chats : ℕ
  total_tokens : ℕ
  conversations : List ConversationRecord
  response_times : List ℚ
  model_config : ModelConfig
deriving Repr, DecidableEq

/-- The freshly constructed ChatStats (ChatStats.__init__, main.py 47-58). -/
def initStats : ChatStats :=
  { total_chats := 0
    total_tokens := 0
    conversations := []
    response_times := []
    model_config :=
      { temperature := 7/10
        max_tokens := 1000
        model := ("gpt-3.5-turbo") } }

/-- The stats payload shape shared by GET /stats, the websocket get_stats
reply and the post-chat broadcast. -/
structure StatsSnapshot where
  total_chats : ℕ
  total_tokens : ℕ
  average_response_time : ℚ
  recent_conversations : List ConversationRecord
  model_config : ModelConfig
deriving Repr, DecidableEq

/-- GET /stats (main.py lines 336-344). -/
def get_stats (s : ChatStats) : StatsSnapshot :=
  { total_chats := s.total_chats
    total_tokens := s.total_tokens
    average_response_time :=
      if s.response_times ≠ [] then s.response_times.sum / (s.response_times.length : ℚ) else 0
    recent_conversations :=
      if s.conversations ≠ [] then lastN s.conversations 5 else []
    model_config := s.model_config }

/-- The stats_data built inside the websocket endpoint on a get_stats
command (main.py lines 207-215). -/
def ws_stats_payload (s : ChatStats) : StatsSnapshot :=
  { total_chats := s.total_chats
    total_tokens := s.total_tokens
    average_response_time :=
      if s.response_times ≠ [] then s.response_times.sum / (s.response_times.length : ℚ) else 0
    recent_conversations :=
      if s.conversations ≠ [] then lastN s.conversations 5 else []
    model_config := s.model_config }

/-- The stats_data built inside chat_endpoint.generate after the commit,
handed to manager.broadcast (main.py lines 279-285). -/
def chat_broadcast_payload (s : ChatStats) : StatsSnapshot :=
  { total_chats := s.total_chats
    total_tokens := s.total_tokens
    average_response_time :=
      if s.response_times ≠ [] then s.response_times.sum / (s.response_times.length : ℚ) else 0
    recent_conversations :=
      if s.conversations ≠ [] then lastN s.conversations 5 else []
    model_config := s.model_config }

/-- POST /reset-stats (main.py lines 361-378): zero the counters, clear both
histories, keep model_config, and broadcast a literal reset payload. -/
def reset_stats (s : ChatStats) : ChatStats × StatsSnapshot :=
  let s1 : ChatStats :=
    { s with
      total_chats := 0
      total_tokens := 0
      conversations := []
      response_times := [] }
  (s1,
    { total_chats := 0
      total_tokens := 0
      average_response_time := 0
      recent_conversations := []
      model_config := s1.model_config })

/-- Request body of POST /config (ConfigRequest, main.py lines 169-172). -/
structure ConfigRequest where
  temperature : Option ℚ
  max_tokens : Option ℤ
  model : Option String
deriving Repr, DecidableEq

/-- POST /config (main.py lines 346-355): write each field present in the
request into model_config, leave absent fields alone, return the merged
config. -/
def update_config (s : ChatStats) (req : ConfigRequest) : ChatStats × ModelConfig :=
  let mc1 : ModelConfig :=
    match req.temperature with
    | some t => { s.model_config with temperature := t }
    | none => s.model_config
  let mc2 : ModelConfig :=
    match req.max_tokens with
    | some m => { mc1 with max_tokens := m }
    | none => mc1
  let mc3 : ModelConfig :=
    match req.model with
    | some m => { mc2 with model := m }
    | none => mc2
  ({ s with model_config := mc3 }, mc3)

/-- Request body of POST /chat (ChatRequest, main.py lines 164-167): the
model is not a field, so a request cannot override it. -/
structure ChatRequest where
  message : String
  temperature : Option ℚ
  max_tokens : Option ℤ
deriving Repr, DecidableEq

/-- The argument bundle of a client.chat.completions.create call
(main.py lines 229-237 and 318-326). -/
structure CompletionRequest where
  model : String
  system_message : Option String
  user_message : String
  temperature : ℚ
  max_tokens : ℤ
  stream : Bool
deriving Repr, DecidableEq

/-- One item pulled from the provider stream: a chunk whose delta.content is
either text or None, or a mid-stream raise from the provider iterator. -/
inductive StreamItem where
  | chunk (content : Option String) : StreamItem
  | err : StreamItem
deriving Repr, DecidableEq

/-- One event yielded to the HTTP caller by chat_endpoint.generate: a
content fragment (done=false line) or the terminal done=true line. -/
inductive OutboundEvent where
  | fragment (text : String) : OutboundEvent
  | done : OutboundEvent
deriving Repr, DecidableEq

/-- Whether an outbound event is a content fragment. -/
def isFragment : OutboundEvent → Bool
  | OutboundEvent.fragment _ => true
  | OutboundEvent.done => false

/-- Number of Fragment events in an outbound event sequence. -/
def fragmentCount (evs : List OutboundEvent) : ℕ := (evs.filter isFragment).length

/-- Result of the streaming loop of chat_endpoint.generate (main.py lines
243-253): the accumulated full_response, the fragment counter the code calls
total_tokens, the events yielded so far, and whether the provider stream was
consumed to exhaustion (ok = false when the iterator raised). -/
structure ConsumeResult where
  full_response : String
  total_tokens : ℕ
  events : List OutboundEvent
  ok : Bool
deriving Repr, DecidableEq

/-- The for-loop over provider chunks (main.py lines 243-253): a chunk with
content is accumulated, counted and yielded; a chunk with None content is
skipped; a raise aborts the loop with everything yielded so far kept. -/
def consume : List StreamItem → ConsumeResult
  | [] => ⟨"", 0, [], true⟩
  | StreamItem.err :: _ => ⟨"", 0, [], false⟩
  | StreamItem.chunk none :: rest => consume rest
  | StreamItem.chunk (some c) :: rest =>
    let r := consume rest
    ⟨c ++ r.full_response, r.total_tokens + 1, OutboundEvent.fragment c :: r.events, r.ok⟩

/-- The stats update after the streaming loop (main.py lines 259-276):
increment total_chats, add the fragment count to total_tokens, append the
response time and the conversation record, then trim each history to its
cap by keeping the most recent entries. The two trims touch disjoint
fields, so they are written per field here. -/
def commit (s : ChatStats) (record : ConversationRecord) : ChatStats :=
  let conversations1 := s.conversations ++ [record]
  let response_times1 := s.response_times ++ [record.response_time]
  { total_chats := s.total_chats + 1
    total_tokens := s.total_tokens + record.tokens
    conversations :=
      if conversations1.length > 50 then lastN conversations1 50 else conversations1
    response_times :=
      if response_times1.length > 100 then lastN response_times1 100 else response_times1
    model_config := s.model_config }

/-- The body of chat_endpoint.generate (main.py lines 239-289) for one
session: consume the provider stream; on exhaustion commit the session into
the stats, broadcast the updated payload and yield the done event; on a
mid-stream raise stop with no commit and no broadcast. The wall-clock
response time and the record timestamp enter as parameters. Returns the
stats after the session, the events yielded, and the broadcast payload if
one was sent. -/
def generate (s : ChatStats) (message ts : String) (response_time : ℚ)
    (stream : List StreamItem) : ChatStats × List OutboundEvent × Option StatsSnapshot :=
  let r := consume stream
  if r.ok then
    let record : ConversationRecord :=
      { user_message := message
        assistant_response := r.full_response
        timestamp := ts
        response_time := response_time
        tokens := r.total_tokens }
    let s1 := commit s record
    (s1, r.events ++ [OutboundEvent.done], some (chat_broadcast_payload s1))
  else
    (s, r.events, none)

/-- POST /chat (main.py lines 219-291): resolve temperature and max_tokens
as request-override-if-present else current model_config value, take the
model from model_config, open the provider stream with those parameters,
and run the streaming generator. Returns the completion request issued to
the provider together with the generate outcome. -/
def chat_endpoint (s : ChatStats) (req : ChatRequest) (ts : String)
    (response_time : ℚ) (stream : List StreamItem) :
    CompletionRequest × ChatStats × List OutboundEvent × Option StatsSnapshot :=
  let temperature :=
    match req.temperature with
    | some t => t
    | none => s.model_config.temperature
  let max_tokens :=
    match req.max_tokens with
    | some m => m
    | none => s.model_config.max_tokens
  let creq : CompletionRequest :=
    { model := s.model_config.model
      system_message := none
      user_message := req.message
      temperature := temperature
      max_tokens := max_tokens
      stream := true }
  let out := generate s req.message ts response_time stream
  (creq, out)

/-- The truncation step of POST /upload-pdf (main.py lines 313-316): text
longer than 4000 characters is cut to its first 4000 characters and the
marker is appended; shorter text is passed through. -/
def truncate_text (text : String) : String :=
  let max_len := 4000
  if text.length > max_len then strTake text max_len ++ ("...") else text

/-- The summarization request of POST /upload-pdf (main.py lines 313-331):
truncate the extracted text, then issue a completion request with the model
from model_config, the fixed system instruction, temperature 0.5 and
max_tokens 300, without streaming. The stats object is returned unchanged:
this path writes nothing. -/
def upload_pdf (s : ChatStats) (text : String) : CompletionRequest × ChatStats :=
  let creq : CompletionRequest :=
    { model := s.model_config.model
      system_message := some ("Summarize the following PDF content:")
      user_message := truncate_text text
      temperature := 1/2
      max_tokens := 300
      stream := false }
  (creq, s)

/-- An observer websocket held in ConnectionManager.active_connections,
identified by an opaque id; sendFails records whether send_text on it
raises. -/
structure Channel where
  id : ℕ
  sendFails : Bool
deriving Repr, DecidableEq

/-- The loop body of ConnectionManager.broadcast (main.py lines 191-196):
walk the connections in order, attempt send_text on each, swallow a raise
and continue. Returns the ids attempted and the ids delivered. -/
def broadcastGo : List Channel → List ℕ × List ℕ
  | [] => ([], [])
  | c :: rest =>
    let r := broadcastGo rest
    (c.id :: r.1, if c.sendFails then r.2 else c.id :: r.2)

/-- ConnectionManager.broadcast (main.py lines 191-196): the connection
list itself is never modified by the loop; a failed send only skips that
one delivery. Returns the registry after the call, the attempted ids and
the delivered ids. -/
def ConnectionManager.broadcast (conns : List Channel) :
    List Channel × List ℕ × List ℕ :=
  (conns, broadcastGo conns)

/-- A concrete provider stream that is consumed to exhaustion: two content
chunks around one empty-delta chunk. -/
def demoStream : List StreamItem :=
  [StreamItem.chunk (some ("He")), StreamItem.chunk none, StreamItem.chunk (some ("llo"))]

/-- A concrete provider stream that raises mid-stream, after one fragment
was already emitted. -/
def demoFailStream : List StreamItem :=
  [StreamItem.chunk (some ("He")), StreamItem.err]

/-- A concrete conversation record. -/
def demoRecord : ConversationRecord :=
  { user_message := ("hi")
    assistant_response := ("Hello")
    timestamp := ("t0")
    response_time := 1
    tokens := 2 }

/-- A stats object identical to initStats except for model_config.model. -/
def altStats : ChatStats :=
  { initStats with model_config := { initStats.model_config with model := ("gpt-4") } }

theorem lastN_of_length_le {α : Type} (l : List α) (n : ℕ) (h : l.length ≤ n) :
    lastN l n = l := by
  have h0 : l.length - n = 0 := by omega
  simp [lastN, h0]

theorem lastN_length_le {α : Type} (l : List α) (n : ℕ) : (lastN l n).length ≤ n := by
  simp only [lastN, List.length_drop]
  omega

theorem lastN_append_lastN {α : Type} (l r : List α) (n : ℕ) :
    lastN (lastN l n ++ r) n = lastN (l ++ r) n := by
  simp only [lastN, List.length_append, List.length_drop,
    List.drop_append_eq_append_drop, List.drop_drop]
  have e1 : l.length - n + (l.length - (l.length - n) + r.length - n) =
      l.length + r.length - n := by omega
  have e2 : l.length - (l.length - n) + r.length - n - (l.length - (l.length - n)) =
      l.length + r.length - n - l.length := by omega
  rw [e1, e2]

theorem lastN_suffix {α : Type} (l : List α) (n : ℕ) : lastN l n <:+ l :=
  List.drop_suffix _ l

theorem commit_total_chats (s : ChatStats) (r : ConversationRecord) :
    (commit s r).total_chats = s.total_chats + 1 := rfl

theorem commit_total_tokens (s : ChatStats) (r : ConversationRecord) :
    (commit s r).total_tokens = s.total_tokens + r.tokens := rfl

theorem commit_model_config (s : ChatStats) (r : ConversationRecord) :
    (commit s r).model_config = s.model_config := rfl

theorem commit_conversations (s : ChatStats) (r : ConversationRecord) :
    (commit s r).conversations = lastN (s.conversations ++ [r]) 50 := by
  show (if (s.conversations ++ [r]).length > 50 then _ else _) = _
  split
  · rfl
  · rw [lastN_of_length_le]
    omega

theorem commit_response_times (s : ChatStats) (r : ConversationRecord) :
    (commit s r).response_times = lastN (s.response_times ++ [r.response_time]) 100 := by
  show (if (s.response_times ++ [r.response_time]).length > 100 then _ else _) = _
  split
  · rfl
  · rw [lastN_of_length_le]
    omega

theorem commit_conversations_length (s : ChatStats) (r : ConversationRecord) :
    (commit s r).conversations.length ≤ 50 := by
  rw [commit_conversations]
  exact lastN_length_le _ _

theorem commit_response_times_length (s : ChatStats) (r : ConversationRecord) :
    (commit s r).response_times.length ≤ 100 := by
  rw [commit_response_times]
  exact lastN_length_le _ _

theorem foldl_commit_conversations :
    ∀ (recs : List ConversationRecord) (s : ChatStats), recs ≠ [] →
      (recs.foldl commit s).conversations = lastN (s.conversations ++ recs) 50
  | [], _, h => absurd rfl h
  | [r], s, _ => by
    simp only [List.foldl]
    exact commit_conversations s r
  | r :: r2 :: rest, s, _ => by
    have ih := foldl_commit_conversations (r2 :: rest) (commit s r) (by simp)
    simp only [List.foldl] at ih ⊢
    rw [ih, commit_conversations, lastN_append_lastN]
    simp

theorem consume_fragmentCount (stream : List StreamItem) :
    fragmentCount (consume stream).events = (consume stream).total_tokens := by
  induction stream with
  | nil => rfl
  | cons item rest ih =>
    match item with
    | StreamItem.err => rfl
    | StreamItem.chunk none =>
      show fragmentCount (consume rest).events = (consume rest).total_tokens
      exact ih
    | StreamItem.chunk (some c) =>
      show fragmentCount (OutboundEvent.fragment c :: (consume rest).events) =
        (consume rest).total_tokens + 1
      simp only [fragmentCount, List.filter, isFragment, List.length_cons]
      rw [← fragmentCount, ih]

theorem fragmentCount_append_done (evs : List OutboundEvent) :
    fragmentCount (evs ++ [OutboundEvent.done]) = fragmentCount evs := by
  simp [fragmentCount, List.filter_append, isFragment]

theorem lastN_append_singleton {α : Type} (l : List α) (x : α) (n : ℕ) (hn : 1 ≤ n) :
    lastN (l ++ [x]) n = l.drop (l.length + 1 - n) ++ [x] := by
  simp only [lastN, List.length_append, List.length_cons, List.length_nil,
    List.drop_append_eq_append_drop]
  have e : l.length + 1 - n - l.length = 0 := by omega
  rw [e]
  rfl

theorem strTake_length (s : String) (n : ℕ) : (strTake s n).length = min n s.length := by
  show (s.data.take n).length = min n s.length
  rw [List.length_take]
  rfl

theorem broadcastGo_attempted (conns : List Channel) :
    (broadcastGo conns).1 = conns.map Channel.id := by
  induction conns with
  | nil => rfl
  | cons c rest ih => simp [broadcastGo, ih]

theorem broadcastGo_delivered (conns : List Channel) :
    (broadcastGo conns).2 = (conns.filter fun c => !c.sendFails).map Channel.id := by
  induction conns with
  | nil => rfl
  | cons c rest ih =>
    by_cases hc : c.sendFails <;> simp [broadcastGo, ih, List.filter, hc]

/-- C1: a chat session whose provider stream is consumed to exhaustion
commits exactly once: total_chats rises by exactly 1, total_tokens rises by
exactly the number of Fragment events emitted to the caller, and exactly
one new ConversationRecord is appended at the most-recent (tail) end of
conversation_history, the surviving prior entries forming its front. -/
theorem chat_commit_effect (s : ChatStats) (message ts : String) (rt : ℚ)
    (stream : List StreamItem) (h : (consume stream).ok = true) :
    (generate s message ts rt stream).1.total_chats = s.total_chats + 1 ∧
    (generate s message ts rt stream).1.total_tokens =
      s.total_tokens + fragmentCount (generate s message ts rt stream).2.1 ∧
    (generate s message ts rt stream).1.conversations =
      s.conversations.drop (s.conversations.length + 1 - 50) ++
        [{ user_message := message
           assistant_response := (consume stream).full_response
           timestamp := ts
           response_time := rt
           tokens := fragmentCount (generate s message ts rt stream).2.1 }] := by
  have hev : (generate s message ts rt stream).2.1 =
      (consume stream).events ++ [OutboundEvent.done] := by
    simp [generate, h]
  have hfc : fragmentCount (generate s message ts rt stream).2.1 =
      (consume stream).total_tokens := by
    rw [hev, fragmentCount_append_done, consume_fragmentCount]
  refine ⟨?_, ?_, ?_⟩
  · simp [generate, h, commit_total_chats]
  · rw [hfc]
    simp [generate, h, commit_total_tokens]
  · rw [hfc]
    simp only [generate, h, if_true]
    rw [commit_conversations, lastN_append_singleton _ _ _ (by omega)]

/-- C1 witness: the commit effect at a concrete three-chunk stream. -/
theorem chat_commit_effect_witness :
    (generate initStats ("hi") ("t0") 1 demoStream).1.total_chats = initStats.total_chats + 1 ∧
    (generate initStats ("hi") ("t0") 1 demoStream).1.total_tokens =
      initStats.total_tokens + fragmentCount (generate initStats ("hi") ("t0") 1 demoStream).2.1 ∧
    (generate initStats ("hi") ("t0") 1 demoStream).1.conversations =
      initStats.conversations.drop (initStats.conversations.length + 1 - 50) ++
        [{ user_message := ("hi")
           assistant_response := (consume demoStream).full_response
           timestamp := ("t0")
           response_time := 1
           tokens := fragmentCount (generate initStats ("hi") ("t0") 1 demoStream).2.1 }] :=
  chat_commit_effect initStats ("hi") ("t0") 1 demoStream (by decide)

/-- C2: after any commit the conversation history holds at most 50 entries
and the response-time history at most 100; committing any sequence of 60
records, from any starting state, leaves exactly the 50 most recent records
in their original relative order. -/
theorem history_caps (s s0 : ChatStats) (r : ConversationRecord)
    (recs : List ConversationRecord) (h60 : recs.length = 60) :
    (commit s r).conversations.length ≤ 50 ∧
    (commit s r).response_times.length ≤ 100 ∧
    (recs.foldl commit s0).conversations = recs.drop 10 := by
  refine ⟨commit_conversations_length s r, commit_response_times_length s r, ?_⟩
  have hne : recs ≠ [] := by
    intro he
    rw [he] at h60
    simp at h60
  rw [foldl_commit_conversations recs s0 hne]
  simp only [lastN, List.length_append, h60, List.drop_append_eq_append_drop]
  rw [List.drop_eq_nil_of_le (by omega)]
  simp only [List.nil_append]
  congr 1
  omega

/-- C2 witness: the caps and the 60-commit eviction at concrete inputs. -/
theorem history_caps_witness :
    (commit initStats demoRecord).conversations.length ≤ 50 ∧
    (commit initStats demoRecord).response_times.length ≤ 100 ∧
    ((List.replicate 60 demoRecord).foldl commit initStats).conversations =
      (List.replicate 60 demoRecord).drop 10 :=
  history_caps initStats initStats demoRecord (List.replicate 60 demoRecord) (by simp)

/-- C3: a provider-stream failure at any point, including after fragments
were already emitted, aborts the session with no partial commit: every
field of the stats object equals its pre-request value and no broadcast
payload is produced. -/
theorem failed_stream_no_commit (s : ChatStats) (message ts : String) (rt : ℚ)
    (stream : List StreamItem) (h : (consume stream).ok = false) :
    (generate s message ts rt stream).1 = s ∧
    (generate s message ts rt stream).1.total_chats = s.total_chats ∧
    (generate s message ts rt stream).1.total_tokens = s.total_tokens ∧
    (generate s message ts rt stream).1.response_times = s.response_times ∧
    (generate s message ts rt stream).1.conversations = s.conversations ∧
    (generate s message ts rt stream).1.model_config = s.model_config ∧
    (generate s message ts rt stream).2.2 = none := by
  simp [generate, h]

/-- C3 witness: the abort behavior at a concrete stream that raises after
one fragment was emitted. -/
theorem failed_stream_no_commit_witness :
    (generate initStats ("hi") ("t0") 1 demoFailStream).1 = initStats ∧
    (generate initStats ("hi") ("t0") 1 demoFailStream).1.total_chats = initStats.total_chats ∧
    (generate initStats ("hi") ("t0") 1 demoFailStream).1.total_tokens = initStats.total_tokens ∧
    (generate initStats ("hi") ("t0") 1 demoFailStream).1.response_times = initStats.response_times ∧
    (generate initStats ("hi") ("t0") 1 demoFailStream).1.conversations = initStats.conversations ∧
    (generate initStats ("hi") ("t0") 1 demoFailStream).1.model_config = initStats.model_config ∧
    (generate initStats ("hi") ("t0") 1 demoFailStream).2.2 = none :=
  failed_stream_no_commit initStats ("hi") ("t0") 1 demoFailStream (by decide)

/-- C4 counterexample: after a broadcast in which channel 0 fails to send,
channel 0 is still a member of the registry — the loop swallows the failure
without unregistering the channel. -/
theorem broadcast_no_unregister :
    Channel.mk 0 true ∈
      (ConnectionManager.broadcast [Channel.mk 0 true, Channel.mk 1 false]).1 ∧
    (ConnectionManager.broadcast [Channel.mk 0 true, Channel.mk 1 false]).1 =
      [Channel.mk 0 true, Channel.mk 1 false] := by
  exact ⟨by decide, rfl⟩

/-- C4 amended: a delivery failure on one registered channel does not
prevent delivery attempts to every other registered channel — every channel
is attempted in order and exactly the non-failing ones receive the message
— but the failing channel is not unregistered: the failure is swallowed
with no retry and the registry is left unchanged. -/
theorem broadcast_best_effort (conns : List Channel) :
    (ConnectionManager.broadcast conns).2.1 = conns.map Channel.id ∧
    (ConnectionManager.broadcast conns).2.2 =
      (conns.filter fun c => !c.sendFails).map Channel.id ∧
    (ConnectionManager.broadcast conns).1 = conns :=
  ⟨broadcastGo_attempted conns, broadcastGo_delivered conns, rfl⟩

/-- C5 counterexample: two stats objects that differ only in the model
field of model_config yield summary completion requests with different
model parameters, so the document-summary path does read a field of
ModelConfig. -/
theorem upload_pdf_reads_model :
    altStats = { initStats with
      model_config := { initStats.model_config with model := ("gpt-4") } } ∧
    (upload_pdf initStats ("doc")).1.model ≠ (upload_pdf altStats ("doc")).1.model := by
  exact ⟨rfl, by decide⟩

/-- C5 amended: the document-summary path always uses the fixed sampling
parameters temperature 0.5 and max_tokens 300, never the session
ModelConfig temperature or max_tokens, and writes nothing — but it does
read the model field of ModelConfig to pick the model for the request. -/
theorem upload_pdf_fixed_params (s : ChatStats) (text : String) :
    (upload_pdf s text).1.temperature = 1/2 ∧
    (upload_pdf s text).1.max_tokens = 300 ∧
    (upload_pdf s text).1.model = s.model_config.model ∧
    (upload_pdf s text).2 = s :=
  ⟨rfl, rfl, rfl, rfl⟩

/-- C6: reset zeroes both counters, empties both history sequences and
leaves model_config unchanged, so the snapshot taken right after a reset
shows zero counters, empty histories and the pre-reset model_config. -/
theorem reset_then_snapshot (s : ChatStats) :
    (reset_stats s).1.total_chats = 0 ∧
    (reset_stats s).1.total_tokens = 0 ∧
    (reset_stats s).1.conversations = [] ∧
    (reset_stats s).1.response_times = [] ∧
    (reset_stats s).1.model_config = s.model_config ∧
    get_stats (reset_stats s).1 =
      { total_chats := 0
        total_tokens := 0
        average_response_time := 0
        recent_conversations := []
        model_config := s.model_config } := by
  refine ⟨rfl, rfl, rfl, rfl, rfl, ?_⟩
  simp [reset_stats, get_stats]

/-- C7: updateConfig merges present fields into model_config, keeps each
absent field at its prior value, and returns the merged config. -/
theorem update_config_partial_merge (s : ChatStats) (req : ConfigRequest) :
    (update_config s req).1.model_config.temperature =
      req.temperature.getD s.model_config.temperature ∧
    (update_config s req).1.model_config.max_tokens =
      req.max_tokens.getD s.model_config.max_tokens ∧
    (update_config s req).1.model_config.model =
      req.model.getD s.model_config.model ∧
    (update_config s req).2 = (update_config s req).1.model_config := by
  rcases req with ⟨t, mt, mo⟩
  cases t <;> cases mt <;> cases mo <;> simp [update_config, Option.getD]

/-- C8: the GET /stats snapshot, the websocket get_stats reply and the
post-commit broadcast payload are identical functions of the stats; the
average response time is the arithmetic mean of the current history, 0 when
the history is empty; and the recent conversations are the 5 most recent
records, a suffix of the history kept in chronological order, the same on
all three read paths. -/
theorem snapshot_read_paths (s : ChatStats) :
    ws_stats_payload s = get_stats s ∧
    chat_broadcast_payload s = get_stats s ∧
    (get_stats s).average_response_time =
      (if s.response_times = [] then 0
       else s.response_times.sum / (s.response_times.length : ℚ)) ∧
    (get_stats s).recent_conversations = lastN s.conversations 5 ∧
    List.IsSuffix (lastN s.conversations 5) s.conversations := by
  refine ⟨rfl, rfl, ?_, ?_, lastN_suffix _ _⟩
  · by_cases h : s.response_times = [] <;> simp [get_stats, h]
  · by_cases h : s.conversations = [] <;> simp [get_stats, h, lastN]

/-- C9: extracted text longer than 4000 characters is truncated to exactly
its first 4000 characters followed by the three-character marker, for a
total length of 4003; text of at most 4000 characters passes through
unmodified with no marker. -/
theorem truncate_text_spec (text : String) :
    truncate_text text =
      (if text.length > 4000 then strTake text 4000 ++ ("...") else text) ∧
    (truncate_text text).length =
      (if text.length > 4000 then 4003 else text.length) ∧
    (strTake text 4000).length = min 4000 text.length := by
  refine ⟨rfl, ?_, strTake_length text 4000⟩
  show (if text.length > 4000 then strTake text 4000 ++ ("...") else text).length = _
  by_cases h : text.length > 4000
  · rw [if_pos h, if_pos h, String.length_append, strTake_length]
    have h3 : ("...").length = 3 := rfl
    rw [h3]
    omega
  · rw [if_neg h, if_neg h]

/-- C10: caller-supplied temperature and max_tokens overrides shape only
that one provider call: the issued completion request resolves each as
override-if-present else the model_config value, the model parameter always
comes from model_config (the request body has no model field), and after
the request — whether the stream completes or fails — model_config equals
its pre-request value. -/
theorem chat_overrides_isolated (s : ChatStats) (req : ChatRequest) (ts : String)
    (rt : ℚ) (stream : List StreamItem) :
    (chat_endpoint s req ts rt stream).1.temperature =
      req.temperature.getD s.model_config.temperature ∧
    (chat_endpoint s req ts rt stream).1.max_tokens =
      req.max_tokens.getD s.model_config.max_tokens ∧
    (chat_endpoint s req ts rt stream).1.model = s.model_config.model ∧
    (chat_endpoint s req ts rt stream).2.1.model_config = s.model_config := by
  refine ⟨?_, ?_, rfl, ?_⟩
  · cases ht : req.temperature <;> simp [chat_endpoint, ht, Option.getD]
  · cases hm : req.max_tokens <;> simp [chat_endpoint, hm, Option.getD]
  · show (generate s req.message ts rt stream).1.model_config = s.model_config
    cases hok : (consume stream).ok <;>
      simp [generate, hok, commit_model_config]
